import Mathlib

/-!
Shallow embedding of the restaurant/pizza HTTP API
(`server/models.py`, `server/app.py`).

The store is modelled as three lists of rows (tables `restaurants`,
`pizzas`, `restaurant_pizzas`).  JSON payloads are modelled by an
inductive `Json` type; numeric JSON values (ids and the `Float` column
`price`) are modelled as rationals, which is exact for every value the
claims mention.  Each HTTP handler from `app.py` becomes a pure function
from the store (and request data) to a response, returning the updated
store where the handler mutates.
-/

/-- JSON values as produced by Flask's `jsonify`. -/
inductive Json where
  | null : Json
  | num (q : ℚ) : Json
  | str (s : String) : Json
  | arr (elems : List Json) : Json
  | obj (fields : List (String × Json)) : Json
deriving Repr

namespace Json

/-- Keys of a JSON object, in order; non-objects have no keys. -/
def keys : Json → List String
  | .obj fields => fields.map Prod.fst
  | _ => []

/-- Value attached to a key of a JSON object, reading left to right. -/
def getKey : Json → String → Option Json
  | .obj fields, k => (fields.find? (fun p => p.fst == k)).map Prod.snd
  | _, _ => none

end Json

/-- Row of the `restaurants` table: `id`, `name` (String(50), unique,
not null), `address` (String(100), not null), from `models.py`. -/
structure Restaurant where
  id : ℤ
  name : String
  address : String
deriving Repr, DecidableEq

/-- Row of the `pizzas` table: `id`, `name` (not null), `ingredients`
(not null), from `models.py`. -/
structure Pizza where
  id : ℤ
  name : String
  ingredients : String
deriving Repr, DecidableEq

/-- Row of the `restaurant_pizzas` join table: `id`, `price` (Float,
not null), foreign keys `restaurant_id` and `pizza_id`, from
`models.py`. -/
structure RestaurantPizza where
  id : ℤ
  price : ℚ
  restaurant_id : ℤ
  pizza_id : ℤ
deriving Repr, DecidableEq

/-- The relational store: the three tables of the schema. -/
structure Store where
  restaurants : List Restaurant
  pizzas : List Pizza
  restaurant_pizzas : List RestaurantPizza
deriving Repr, DecidableEq

/-- Declarative column constraints as carried by a SQLAlchemy `Column`
declaration: these live in the storage layer, not in the `@validates`
assignment hooks. -/
structure ColumnSpec where
  maxLength : Option ℕ
  unique : Bool
  nullable : Bool
deriving Repr, DecidableEq

namespace Restaurant

/-- Column declaration `name = Column(String(50), unique=True, nullable=False)`. -/
def name_column : ColumnSpec := { maxLength := some 50, unique := true, nullable := false }

/-- Column declaration `address = Column(String(100), nullable=False)`. -/
def address_column : ColumnSpec := { maxLength := some 100, unique := false, nullable := false }

/-- Assignment-time hook `Restaurant.validate_name`: rejects an empty
name and a name whose length is outside 1..50, otherwise returns the
value unchanged. -/
def validate_name (name : String) : Except String String :=
  if name = "" then .error "Restaurant must have a name."
  else if ¬ (1 ≤ name.length ∧ name.length ≤ 50) then
    .error "Restaurant name must be between 1 and 50 characters."
  else .ok name

/-- Assignment-time hook `Restaurant.validate_address`: rejects only an
empty address, otherwise returns the value unchanged. -/
def validate_address (address : String) : Except String String :=
  if address = "" then .error "Restaurant must have an address."
  else .ok address

end Restaurant

namespace RestaurantPizza

/-- A JSON request value for the `price` field: either a number or some
non-numeric value (modelled by its string form), as `data.get("price")`
may yield either. -/
inductive PriceValue where
  | num (q : ℚ) : PriceValue
  | nonNumeric (s : String) : PriceValue
deriving Repr, DecidableEq

/-- Assignment-time hook `RestaurantPizza.validate_price`: rejects a
non-numeric value, then rejects a number outside the inclusive range
1..30, otherwise returns the value. -/
def validate_price : PriceValue → Except String ℚ
  | .nonNumeric _ => .error "Price must be a number."
  | .num q =>
    if ¬ (1 ≤ q ∧ q ≤ 30) then
      .error "Price must be between 1 and 30 (inclusive)."
    else .ok q

end RestaurantPizza

namespace Store

/-- `Restaurant.query.get(id)`: primary-key lookup. -/
def getRestaurant (s : Store) (id : ℤ) : Option Restaurant :=
  s.restaurants.find? (fun r => r.id == id)

/-- `Pizza.query.get(id)`: primary-key lookup. -/
def getPizza (s : Store) (id : ℤ) : Option Pizza :=
  s.pizzas.find? (fun p => p.id == id)

/-- `RestaurantPizza.query.get(id)`: primary-key lookup in the join table. -/
def getRestaurantPizza (s : Store) (id : ℤ) : Option RestaurantPizza :=
  s.restaurant_pizzas.find? (fun rp => rp.id == id)

/-- Offerings owned by a restaurant: the `restaurant_pizzas`
relationship of `Restaurant`, collected by foreign key. -/
def offeringsOf (s : Store) (id : ℤ) : List RestaurantPizza :=
  s.restaurant_pizzas.filter (fun rp => rp.restaurant_id == id)

/-- Autoincremented primary key for a fresh `restaurant_pizzas` row. -/
def nextRestaurantPizzaId (s : Store) : ℤ :=
  (s.restaurant_pizzas.foldl (fun m rp => max m rp.id) 0) + 1

/-- Referential and key integrity of the store, as the database schema
guarantees it: every foreign key of the join table references an
existing row, and primary keys of the join table are distinct. -/
def WF (s : Store) : Prop :=
  (∀ rp ∈ s.restaurant_pizzas,
      (∃ r ∈ s.restaurants, r.id = rp.restaurant_id) ∧
      (∃ p ∈ s.pizzas, p.id = rp.pizza_id)) ∧
  (s.restaurant_pizzas.map RestaurantPizza.id).Nodup

instance (s : Store) : Decidable s.WF := by
  unfold WF
  infer_instance

end Store

/-- `Restaurant.to_dict(rules=('-restaurant_pizzas',))`: the list view
of a restaurant, scalar fields only (`Restaurants.get` in `app.py`). -/
def serializeRestaurantList (r : Restaurant) : Json :=
  .obj [("id", .num r.id), ("name", .str r.name), ("address", .str r.address)]

/-- `Pizza.to_dict(rules=('-restaurant_pizzas',))`: the list view of a
pizza, scalar fields only (`Pizzas.get` in `app.py`). -/
def serializePizzaList (p : Pizza) : Json :=
  .obj [("id", .num p.id), ("name", .str p.name), ("ingredients", .str p.ingredients)]

/-- An offering as nested inside `Restaurant.to_dict()`: scalar fields
plus the nested pizza (scalar fields only, by the rule
`-pizza.restaurant_pizzas` of `RestaurantPizza.serialize_rules`); the
`restaurant` back-reference is omitted by the rule
`-restaurant_pizzas.restaurant` of `Restaurant.serialize_rules`.  A
broken foreign key would serialize the relationship as `null`. -/
def serializeOfferingInRestaurant (s : Store) (rp : RestaurantPizza) : Json :=
  .obj [("id", .num rp.id), ("price", .num rp.price),
        ("restaurant_id", .num rp.restaurant_id), ("pizza_id", .num rp.pizza_id),
        ("pizza", match s.getPizza rp.pizza_id with
                  | some p => serializePizzaList p
                  | none => .null)]

/-- `Restaurant.to_dict()`: the detail view, scalar fields plus the full
offering collection (`RestaurantByID.get` in `app.py`). -/
def serializeRestaurantDetail (s : Store) (r : Restaurant) : Json :=
  .obj [("id", .num r.id), ("name", .str r.name), ("address", .str r.address),
        ("restaurant_pizzas",
         .arr ((s.offeringsOf r.id).map (serializeOfferingInRestaurant s)))]

/-- `RestaurantPizza.to_dict()`: the creation-response view, scalar
fields plus nested restaurant and nested pizza, each without its own
offering collection by `RestaurantPizza.serialize_rules`
(`-restaurant.restaurant_pizzas`, `-pizza.restaurant_pizzas`). -/
def serializeOfferingCreated (r : Restaurant) (p : Pizza) (rp : RestaurantPizza) : Json :=
  .obj [("id", .num rp.id), ("price", .num rp.price),
        ("restaurant_id", .num rp.restaurant_id), ("pizza_id", .num rp.pizza_id),
        ("restaurant", serializeRestaurantList r),
        ("pizza", serializePizzaList p)]

/-- An HTTP response: status code and an optional JSON body (`none`
models the empty `make_response("", 204)` body). -/
structure Response where
  status : ℕ
  body : Option Json
deriving Repr

/-- `make_error_response(message, status_code)` from `app.py`. -/
def make_error_response (message : String) (status_code : ℕ) : Response :=
  { status := status_code, body := some (.obj [("error", .str message)]) }

/-- `make_validation_error_response(errors)` from `app.py`: status 400
with an `errors` array. -/
def make_validation_error_response (errors : List String) : Response :=
  { status := 400, body := some (.obj [("errors", .arr (errors.map Json.str))]) }

/-- `Restaurants.get`: GET /restaurants, list view of every restaurant. -/
def getRestaurants (s : Store) : Response :=
  { status := 200, body := some (.arr (s.restaurants.map serializeRestaurantList)) }

/-- `Pizzas.get`: GET /pizzas, list view of every pizza. -/
def getPizzas (s : Store) : Response :=
  { status := 200, body := some (.arr (s.pizzas.map serializePizzaList)) }

/-- `RestaurantByID.get`: GET /restaurants/{id}; 404 when the id is
absent, otherwise 200 with the detail view. -/
def getRestaurantById (s : Store) (id : ℤ) : Response :=
  match s.getRestaurant id with
  | none => make_error_response "Restaurant not found" 404
  | some r => { status := 200, body := some (serializeRestaurantDetail s r) }

/-- `RestaurantByID.delete`: DELETE /restaurants/{id}; 404 when the id
is absent, otherwise the row is deleted, the `cascade="all,
delete-orphan"` relationship deletes every owned offering, and the
response is 204 with an empty body. -/
def deleteRestaurantById (s : Store) (id : ℤ) : Response × Store :=
  match s.getRestaurant id with
  | none => (make_error_response "Restaurant not found" 404, s)
  | some _ =>
    ({ status := 204, body := none },
     { s with
       restaurants := s.restaurants.filter (fun r => r.id != id),
       restaurant_pizzas := s.restaurant_pizzas.filter (fun rp => rp.restaurant_id != id) })

/-- Request body of POST /restaurant_pizzas as read by
`data.get("price")`, `data.get("pizza_id")`, `data.get("restaurant_id")`:
`none` models an absent field. -/
structure RPPostRequest where
  price : Option RestaurantPizza.PriceValue
  pizza_id : Option ℤ
  restaurant_id : Option ℤ
deriving Repr, DecidableEq

/-- `RestaurantPizzas.post`: POST /restaurant_pizzas.  In the order of
`app.py`: a missing field gives 400; a dangling `restaurant_id` gives
404 "Restaurant not found"; a dangling `pizza_id` gives 404 "Pizza not
found"; a `ValueError` from `validate_price` during construction is
caught, the session rolled back, and 400 with the fixed `errors` array
`["validation errors"]` returned; otherwise the row is inserted and 201
returned with the creation-response view. -/
def postRestaurantPizza (s : Store) (req : RPPostRequest) : Response × Store :=
  match req.price, req.pizza_id, req.restaurant_id with
  | some price, some pizza_id, some restaurant_id =>
    match s.getRestaurant restaurant_id with
    | none => (make_error_response "Restaurant not found" 404, s)
    | some restaurant =>
      match s.getPizza pizza_id with
      | none => (make_error_response "Pizza not found" 404, s)
      | some pizza =>
        match RestaurantPizza.validate_price price with
        | .error _ => (make_validation_error_response ["validation errors"], s)
        | .ok q =>
          let rp : RestaurantPizza :=
            { id := s.nextRestaurantPizzaId, price := q,
              restaurant_id := restaurant_id, pizza_id := pizza_id }
          ({ status := 201, body := some (serializeOfferingCreated restaurant pizza rp) },
           { s with restaurant_pizzas := s.restaurant_pizzas ++ [rp] })
  | _, _, _ =>
    (make_validation_error_response
      ["Missing required fields: price, pizza_id, restaurant_id"], s)

/-- Shape demanded of the nested pizza object: keys exactly
`id, name, ingredients` (hence no `restaurant_pizzas` key). -/
def pizzaScalarShape (j : Json) : Bool :=
  j.keys == ["id", "name", "ingredients"]

/-- Shape demanded of the nested restaurant object: keys exactly
`id, name, address` (hence no `restaurant_pizzas` key). -/
def restaurantScalarShape (j : Json) : Bool :=
  j.keys == ["id", "name", "address"]

/-- Shape demanded of an offering inside a restaurant detail payload:
its scalar keys plus a `pizza` key (no `restaurant` key), with the
nested pizza of scalar shape. -/
def offeringInRestaurantShape (j : Json) : Bool :=
  j.keys == ["id", "price", "restaurant_id", "pizza_id", "pizza"] &&
  (match j.getKey "pizza" with
   | some pj => pizzaScalarShape pj
   | none => false)

/-- Shape demanded of a restaurant detail payload: scalar keys plus a
`restaurant_pizzas` array whose every element has the offering shape. -/
def restaurantDetailShape (j : Json) : Bool :=
  j.keys == ["id", "name", "address", "restaurant_pizzas"] &&
  (match j.getKey "restaurant_pizzas" with
   | some (.arr elems) => elems.all offeringInRestaurantShape
   | _ => false)

/-- Shape demanded of a creation response payload: the offering's scalar
keys plus nested `restaurant` and `pizza` objects, each of scalar shape. -/
def offeringCreatedShape (j : Json) : Bool :=
  j.keys == ["id", "price", "restaurant_id", "pizza_id", "restaurant", "pizza"] &&
  (match j.getKey "restaurant" with
   | some rj => restaurantScalarShape rj
   | none => false) &&
  (match j.getKey "pizza" with
   | some pj => pizzaScalarShape pj
   | none => false)

/-- Concrete store mirroring the seed data, used by witnesses. -/
def seedStore : Store :=
  { restaurants :=
      [{ id := 1, name := "Karens Pizza Shack", address := "123 Pizza Lane" },
       { id := 2, name := "Sanjays Pizza", address := "45 Main Street" }],
    pizzas :=
      [{ id := 1, name := "Margherita", ingredients := "Dough, Tomato Sauce, Cheese, Basil" },
       { id := 2, name := "Pepperoni", ingredients := "Dough, Tomato Sauce, Cheese, Pepperoni" }],
    restaurant_pizzas :=
      [{ id := 1, price := 12, restaurant_id := 1, pizza_id := 1 },
       { id := 2, price := 7, restaurant_id := 1, pizza_id := 2 },
       { id := 3, price := 20, restaurant_id := 2, pizza_id := 1 }] }

/-! ### Helper lemmas -/

lemma string_length_eq_zero_iff (s : String) : s.length = 0 ↔ s = "" := by
  constructor
  · intro h
    cases s with
    | mk data =>
      cases data with
      | nil => rfl
      | cons a l => simp [String.length] at h
  · intro h; subst h; rfl

lemma getPizza_isSome_of_exists (s : Store) (id : ℤ)
    (h : ∃ p ∈ s.pizzas, p.id = id) : ∃ p, s.getPizza id = some p := by
  have : (s.pizzas.find? (fun p => p.id == id)).isSome := by
    rw [List.find?_isSome]
    obtain ⟨p, hp, hid⟩ := h
    exact ⟨p, hp, by simp [hid]⟩
  obtain ⟨p, hp⟩ := Option.isSome_iff_exists.mp this
  exact ⟨p, hp⟩

lemma offeringInRestaurantShape_of_fk (s : Store) (rp : RestaurantPizza)
    (h : ∃ p ∈ s.pizzas, p.id = rp.pizza_id) :
    offeringInRestaurantShape (serializeOfferingInRestaurant s rp) = true := by
  obtain ⟨p, hp⟩ := getPizza_isSome_of_exists s rp.pizza_id h
  simp only [serializeOfferingInRestaurant, hp]
  rfl

lemma restaurantDetailShape_serialize (s : Store) (r : Restaurant)
    (h : ∀ rp ∈ s.offeringsOf r.id,
      offeringInRestaurantShape (serializeOfferingInRestaurant s rp) = true) :
    restaurantDetailShape (serializeRestaurantDetail s r) = true := by
  have hdef : restaurantDetailShape (serializeRestaurantDetail s r) =
      ((s.offeringsOf r.id).map (serializeOfferingInRestaurant s)).all
        offeringInRestaurantShape := rfl
  rw [hdef, List.all_eq_true]
  intro j hj
  rw [List.mem_map] at hj
  obtain ⟨rp, hrp, rfl⟩ := hj
  exact h rp hrp

lemma getRestaurant_eq_none_of_absent (s : Store) (id : ℤ)
    (habs : ∀ r ∈ s.restaurants, r.id ≠ id) : s.getRestaurant id = none := by
  unfold Store.getRestaurant
  rw [List.find?_eq_none]
  intro r hr
  simp [habs r hr]

/-! ### Claim theorems -/

/-- C7: GET /restaurants and GET /pizzas both return a 200 JSON array
whose elements carry scalar fields only ({id, name, address} for
restaurants, {id, name, ingredients} for pizzas); no element contains a
restaurant_pizzas key. -/
theorem c7_list_endpoints_scalar_only (s : Store) :
    (getRestaurants s).status = 200 ∧
    (∃ elems, (getRestaurants s).body = some (.arr elems) ∧
      ∀ j ∈ elems, restaurantScalarShape j = true) ∧
    (getPizzas s).status = 200 ∧
    (∃ elems, (getPizzas s).body = some (.arr elems) ∧
      ∀ j ∈ elems, pizzaScalarShape j = true) := by
  refine ⟨rfl, ⟨_, rfl, ?_⟩, rfl, ⟨_, rfl, ?_⟩⟩
  · intro j hj
    rw [List.mem_map] at hj
    obtain ⟨r, _, rfl⟩ := hj
    rfl
  · intro j hj
    rw [List.mem_map] at hj
    obtain ⟨p, _, rfl⟩ := hj
    rfl

/-- C1: for a restaurant id present in a well-formed store,
GET /restaurants/{id} returns 200 with the restaurant's scalar fields
plus a restaurant_pizzas array whose every element carries its own
scalar fields and a nested pizza object holding only
{id, name, ingredients}, with the offering's restaurant back-reference
omitted; for an absent id it returns 404 with
{"error": "Restaurant not found"}. -/
theorem c1_get_restaurant_by_id (s : Store) (id : ℤ) (hwf : s.WF) :
    ((∃ r ∈ s.restaurants, r.id = id) →
      (getRestaurantById s id).status = 200 ∧
      ∃ j, (getRestaurantById s id).body = some j ∧ restaurantDetailShape j = true) ∧
    ((∀ r ∈ s.restaurants, r.id ≠ id) →
      getRestaurantById s id =
        { status := 404,
          body := some (.obj [("error", .str "Restaurant not found")]) }) := by
  constructor
  · intro hex
    have hsome : ∃ r, s.getRestaurant id = some r := by
      have : (s.restaurants.find? (fun r => r.id == id)).isSome := by
        rw [List.find?_isSome]
        obtain ⟨r, hr, hid⟩ := hex
        exact ⟨r, hr, by simp [hid]⟩
      obtain ⟨r, hr⟩ := Option.isSome_iff_exists.mp this
      exact ⟨r, hr⟩
    obtain ⟨r, hr⟩ := hsome
    refine ⟨by simp [getRestaurantById, hr], serializeRestaurantDetail s r,
      by simp [getRestaurantById, hr], ?_⟩
    refine restaurantDetailShape_serialize s r ?_
    intro rp hrp
    have hmem : rp ∈ s.restaurant_pizzas := List.mem_of_mem_filter hrp
    exact offeringInRestaurantShape_of_fk s rp (hwf.1 rp hmem).2
  · intro habs
    simp [getRestaurantById, getRestaurant_eq_none_of_absent s id habs,
      make_error_response]

/-- C1 witness: the seed store is well-formed and the theorem applies to
restaurant id 1. -/
theorem c1_get_restaurant_by_id_witness :
    seedStore.WF ∧
    (((∃ r ∈ seedStore.restaurants, r.id = 1) →
      (getRestaurantById seedStore 1).status = 200 ∧
      ∃ j, (getRestaurantById seedStore 1).body = some j ∧
        restaurantDetailShape j = true) ∧
    ((∀ r ∈ seedStore.restaurants, r.id ≠ 1) →
      getRestaurantById seedStore 1 =
        { status := 404,
          body := some (.obj [("error", .str "Restaurant not found")]) })) :=
  ⟨by decide, c1_get_restaurant_by_id seedStore 1 (by decide)⟩

/-- C9: deleting a restaurant id absent from the store returns 404 (never
204), leaves the store unchanged, and a second DELETE of the same id
again returns 404. -/
theorem c9_delete_absent_404_idempotent (s : Store) (id : ℤ)
    (habs : ∀ r ∈ s.restaurants, r.id ≠ id) :
    (deleteRestaurantById s id).1.status = 404 ∧
    (deleteRestaurantById s id).1.status ≠ 204 ∧
    (deleteRestaurantById s id).1.body =
      some (.obj [("error", .str "Restaurant not found")]) ∧
    (deleteRestaurantById s id).2 = s ∧
    (deleteRestaurantById (deleteRestaurantById s id).2 id).1.status = 404 ∧
    (deleteRestaurantById (deleteRestaurantById s id).2 id).1.status ≠ 204 := by
  have hnone := getRestaurant_eq_none_of_absent s id habs
  simp [deleteRestaurantById, hnone, make_error_response]

/-- C9 witness: id 99 is absent from the seed store. -/
theorem c9_delete_absent_404_idempotent_witness :
    (∀ r ∈ seedStore.restaurants, r.id ≠ 99) ∧
    ((deleteRestaurantById seedStore 99).1.status = 404 ∧
    (deleteRestaurantById seedStore 99).1.status ≠ 204 ∧
    (deleteRestaurantById seedStore 99).1.body =
      some (.obj [("error", .str "Restaurant not found")]) ∧
    (deleteRestaurantById seedStore 99).2 = seedStore ∧
    (deleteRestaurantById (deleteRestaurantById seedStore 99).2 99).1.status = 404 ∧
    (deleteRestaurantById (deleteRestaurantById seedStore 99).2 99).1.status ≠ 204) :=
  ⟨by decide, c9_delete_absent_404_idempotent seedStore 99 (by decide)⟩

/-- C6: deleting a present restaurant id returns 204 with an empty body,
removes the restaurant row, removes every offering it owned (querying
any of their ids afterwards finds nothing), and leaves no offering still
referencing the deleted restaurant. -/
theorem c6_delete_restaurant_cascade (s : Store) (id : ℤ) (hwf : s.WF)
    (hex : ∃ r ∈ s.restaurants, r.id = id) :
    (deleteRestaurantById s id).1.status = 204 ∧
    (deleteRestaurantById s id).1.body = none ∧
    (deleteRestaurantById s id).2.getRestaurant id = none ∧
    (∀ rp ∈ s.restaurant_pizzas, rp.restaurant_id = id →
      (deleteRestaurantById s id).2.getRestaurantPizza rp.id = none) ∧
    (∀ rp ∈ (deleteRestaurantById s id).2.restaurant_pizzas,
      rp.restaurant_id ≠ id) := by
  have hsome : ∃ r, s.getRestaurant id = some r := by
    have : (s.restaurants.find? (fun r => r.id == id)).isSome := by
      rw [List.find?_isSome]
      obtain ⟨r, hr, hid⟩ := hex
      exact ⟨r, hr, by simp [hid]⟩
    obtain ⟨r, hr⟩ := Option.isSome_iff_exists.mp this
    exact ⟨r, hr⟩
  obtain ⟨r, hr⟩ := hsome
  have hdel : deleteRestaurantById s id =
      ({ status := 204, body := none },
       { s with
         restaurants := s.restaurants.filter (fun x => x.id != id),
         restaurant_pizzas :=
           s.restaurant_pizzas.filter (fun rp => rp.restaurant_id != id) }) := by
    simp [deleteRestaurantById, hr]
  refine ⟨by rw [hdel], by rw [hdel], ?_, ?_, ?_⟩
  · rw [hdel]
    unfold Store.getRestaurant
    rw [List.find?_eq_none]
    intro x hx
    have := (List.mem_filter.mp hx).2
    simpa using this
  · intro rp hrp hrid
    rw [hdel]
    unfold Store.getRestaurantPizza
    rw [List.find?_eq_none]
    intro rp' hrp'
    have hmem' : rp' ∈ s.restaurant_pizzas := (List.mem_filter.mp hrp').1
    have hne : rp'.restaurant_id ≠ id := by
      have := (List.mem_filter.mp hrp').2
      simpa using this
    simp only [beq_iff_eq]
    intro heq
    have : rp' = rp := List.inj_on_of_nodup_map hwf.2 hmem' hrp heq
    exact hne (this ▸ hrid)
  · intro rp hrp
    rw [hdel] at hrp
    have := (List.mem_filter.mp hrp).2
    simpa using this

/-- C6 witness: deleting restaurant 1 of the seed store, which owns two
offerings. -/
theorem c6_delete_restaurant_cascade_witness :
    seedStore.WF ∧ (∃ r ∈ seedStore.restaurants, r.id = 1) ∧
    ((deleteRestaurantById seedStore 1).1.status = 204 ∧
    (deleteRestaurantById seedStore 1).1.body = none ∧
    (deleteRestaurantById seedStore 1).2.getRestaurant 1 = none ∧
    (∀ rp ∈ seedStore.restaurant_pizzas, rp.restaurant_id = 1 →
      (deleteRestaurantById seedStore 1).2.getRestaurantPizza rp.id = none) ∧
    (∀ rp ∈ (deleteRestaurantById seedStore 1).2.restaurant_pizzas,
      rp.restaurant_id ≠ 1)) :=
  ⟨by decide, by decide, c6_delete_restaurant_cascade seedStore 1 (by decide) (by decide)⟩

/-- C8: a POST /restaurant_pizzas body missing at least one of price,
pizza_id, restaurant_id gets a 400 response whose body is a non-empty
errors array (a validation error, not a not-found error object), and the
store is unchanged. -/
theorem c8_post_missing_field_400 (s : Store) (req : RPPostRequest)
    (habs : req.price = none ∨ req.pizza_id = none ∨ req.restaurant_id = none) :
    (postRestaurantPizza s req).1.status = 400 ∧
    (∃ msgs, msgs ≠ [] ∧ (postRestaurantPizza s req).1.body =
      some (.obj [("errors", .arr (msgs.map Json.str))])) ∧
    (postRestaurantPizza s req).2 = s := by
  obtain ⟨price, pizza_id, restaurant_id⟩ := req
  have hred : postRestaurantPizza s ⟨price, pizza_id, restaurant_id⟩ =
      (make_validation_error_response
        ["Missing required fields: price, pizza_id, restaurant_id"], s) := by
    rcases habs with h | h | h
    · simp only at h; subst h
      cases pizza_id <;> cases restaurant_id <;> rfl
    · simp only at h; subst h
      cases price <;> cases restaurant_id <;> rfl
    · simp only at h; subst h
      cases price <;> cases pizza_id <;> rfl
  rw [hred]
  exact ⟨rfl, ⟨["Missing required fields: price, pizza_id, restaurant_id"],
    by simp, rfl⟩, rfl⟩

/-- C8 witness: a body missing the price field against the seed store. -/
theorem c8_post_missing_field_400_witness :
    (({ price := none, pizza_id := some 1, restaurant_id := some 1 }
        : RPPostRequest).price = none ∨
     ({ price := none, pizza_id := some 1, restaurant_id := some 1 }
        : RPPostRequest).pizza_id = none ∨
     ({ price := none, pizza_id := some 1, restaurant_id := some 1 }
        : RPPostRequest).restaurant_id = none) ∧
    ((postRestaurantPizza seedStore
        { price := none, pizza_id := some 1, restaurant_id := some 1 }).1.status = 400 ∧
    (∃ msgs, msgs ≠ [] ∧ (postRestaurantPizza seedStore
        { price := none, pizza_id := some 1, restaurant_id := some 1 }).1.body =
      some (.obj [("errors", .arr (msgs.map Json.str))])) ∧
    (postRestaurantPizza seedStore
        { price := none, pizza_id := some 1, restaurant_id := some 1 }).2 = seedStore) :=
  ⟨Or.inl rfl, c8_post_missing_field_400 seedStore
    { price := none, pizza_id := some 1, restaurant_id := some 1 } (Or.inl rfl)⟩

/-- C4: a POST /restaurant_pizzas body whose restaurant_id or pizza_id
references no existing row gets a 404 response ("Restaurant not found"
when the restaurant is missing, otherwise "Pizza not found"), and the
store is unchanged: the not-found checks precede any mutation. -/
theorem c4_post_dangling_reference_404 (s : Store)
    (price : RestaurantPizza.PriceValue) (pizza_id restaurant_id : ℤ)
    (hdangling : s.getRestaurant restaurant_id = none ∨ s.getPizza pizza_id = none) :
    (postRestaurantPizza s
      ⟨some price, some pizza_id, some restaurant_id⟩).1.status = 404 ∧
    (postRestaurantPizza s ⟨some price, some pizza_id, some restaurant_id⟩).2 = s ∧
    (s.getRestaurant restaurant_id = none →
      (postRestaurantPizza s ⟨some price, some pizza_id, some restaurant_id⟩).1 =
        make_error_response "Restaurant not found" 404) ∧
    (s.getRestaurant restaurant_id ≠ none → s.getPizza pizza_id = none →
      (postRestaurantPizza s ⟨some price, some pizza_id, some restaurant_id⟩).1 =
        make_error_response "Pizza not found" 404) := by
  cases hr : s.getRestaurant restaurant_id with
  | none =>
    refine ⟨?_, ?_, ?_, ?_⟩ <;> simp [postRestaurantPizza, hr, make_error_response]
  | some r =>
    have hp : s.getPizza pizza_id = none := by
      rcases hdangling with h | h
      · rw [hr] at h; exact absurd h (by simp)
      · exact h
    refine ⟨?_, ?_, ?_, ?_⟩ <;>
      simp [postRestaurantPizza, hr, hp, make_error_response]

/-- C4 witness: restaurant_id 99 references no row of the seed store. -/
theorem c4_post_dangling_reference_404_witness :
    (seedStore.getRestaurant 99 = none ∨ seedStore.getPizza 1 = none) ∧
    ((postRestaurantPizza seedStore
      ⟨some (.num 10), some 1, some 99⟩).1.status = 404 ∧
    (postRestaurantPizza seedStore ⟨some (.num 10), some 1, some 99⟩).2 = seedStore ∧
    (seedStore.getRestaurant 99 = none →
      (postRestaurantPizza seedStore ⟨some (.num 10), some 1, some 99⟩).1 =
        make_error_response "Restaurant not found" 404) ∧
    (seedStore.getRestaurant 99 ≠ none → seedStore.getPizza 1 = none →
      (postRestaurantPizza seedStore ⟨some (.num 10), some 1, some 99⟩).1 =
        make_error_response "Pizza not found" 404)) :=
  ⟨Or.inl (by decide), c4_post_dangling_reference_404 seedStore
    (.num 10) 1 99 (Or.inl (by decide))⟩

/-- C3: a POST /restaurant_pizzas body whose referenced restaurant and
pizza both exist but whose numeric price lies outside the inclusive
range 1..30 gets a 400 response with a non-empty errors array, and the
store is unchanged (the failed insert is rolled back). -/
theorem c3_post_price_out_of_range_400 (s : Store) (q : ℚ)
    (pizza_id restaurant_id : ℤ)
    (hr : s.getRestaurant restaurant_id ≠ none)
    (hp : s.getPizza pizza_id ≠ none)
    (hq : q < 1 ∨ 30 < q) :
    (postRestaurantPizza s
      ⟨some (.num q), some pizza_id, some restaurant_id⟩).1.status = 400 ∧
    (∃ msgs, msgs ≠ [] ∧
      (postRestaurantPizza s
        ⟨some (.num q), some pizza_id, some restaurant_id⟩).1.body =
        some (.obj [("errors", .arr (msgs.map Json.str))])) ∧
    (postRestaurantPizza s ⟨some (.num q), some pizza_id, some restaurant_id⟩).2
      = s := by
  obtain ⟨r, hrs⟩ := Option.ne_none_iff_exists'.mp hr
  obtain ⟨p, hps⟩ := Option.ne_none_iff_exists'.mp hp
  have hval : RestaurantPizza.validate_price (.num q) =
      .error "Price must be between 1 and 30 (inclusive)." := by
    unfold RestaurantPizza.validate_price
    have : ¬ (1 ≤ q ∧ q ≤ 30) := by
      rcases hq with h | h
      · exact fun hc => absurd hc.1 (not_le.mpr h)
      · exact fun hc => absurd hc.2 (not_le.mpr h)
    simp [this]
  have hred : postRestaurantPizza s
      ⟨some (.num q), some pizza_id, some restaurant_id⟩ =
      (make_validation_error_response ["validation errors"], s) := by
    simp [postRestaurantPizza, hrs, hps, hval]
  rw [hred]
  exact ⟨rfl, ⟨["validation errors"], by simp, rfl⟩, rfl⟩

/-- C3 witness: price 0 with both ids referencing seed rows. -/
theorem c3_post_price_out_of_range_400_witness :
    seedStore.getRestaurant 1 ≠ none ∧ seedStore.getPizza 1 ≠ none ∧
    ((0 : ℚ) < 1 ∨ (30 : ℚ) < 0) ∧
    ((postRestaurantPizza seedStore
      ⟨some (.num 0), some 1, some 1⟩).1.status = 400 ∧
    (∃ msgs, msgs ≠ [] ∧
      (postRestaurantPizza seedStore ⟨some (.num 0), some 1, some 1⟩).1.body =
        some (.obj [("errors", .arr (msgs.map Json.str))])) ∧
    (postRestaurantPizza seedStore ⟨some (.num 0), some 1, some 1⟩).2 = seedStore) :=
  ⟨by decide, by decide, Or.inl (by norm_num),
   c3_post_price_out_of_range_400 seedStore 0 1 1 (by decide) (by decide)
     (Or.inl (by norm_num))⟩

/-- C10: whenever the price validator raises (out-of-range or
non-numeric price) after both referenced rows were found, the 400
response body is exactly the fixed object
with errors equal to the one-element array ["validation errors"],
whatever the failing input was. -/
theorem c10_validation_failure_fixed_body (s : Store)
    (price : RestaurantPizza.PriceValue) (pizza_id restaurant_id : ℤ)
    (hr : s.getRestaurant restaurant_id ≠ none)
    (hp : s.getPizza pizza_id ≠ none)
    (hfail : ∃ msg, RestaurantPizza.validate_price price = .error msg) :
    (postRestaurantPizza s ⟨some price, some pizza_id, some restaurant_id⟩).1 =
      { status := 400,
        body := some (.obj [("errors", .arr [.str "validation errors"])]) } := by
  obtain ⟨r, hrs⟩ := Option.ne_none_iff_exists'.mp hr
  obtain ⟨p, hps⟩ := Option.ne_none_iff_exists'.mp hp
  obtain ⟨msg, hval⟩ := hfail
  simp [postRestaurantPizza, hrs, hps, hval, make_validation_error_response]

/-- C10 witness: a non-numeric price against existing seed rows. -/
theorem c10_validation_failure_fixed_body_witness :
    seedStore.getRestaurant 1 ≠ none ∧ seedStore.getPizza 1 ≠ none ∧
    (∃ msg, RestaurantPizza.validate_price (.nonNumeric "twelve") = .error msg) ∧
    (postRestaurantPizza seedStore
        ⟨some (.nonNumeric "twelve"), some 1, some 1⟩).1 =
      { status := 400,
        body := some (.obj [("errors", .arr [.str "validation errors"])]) } :=
  ⟨by decide, by decide, ⟨"Price must be a number.", rfl⟩,
   c10_validation_failure_fixed_body seedStore (.nonNumeric "twelve") 1 1
     (by decide) (by decide) ⟨"Price must be a number.", rfl⟩⟩

lemma offeringCreatedShape_serialize (r : Restaurant) (p : Pizza)
    (rp : RestaurantPizza) :
    offeringCreatedShape (serializeOfferingCreated r p rp) = true := rfl

/-- C5: a POST /restaurant_pizzas body with an existing restaurant_id,
an existing pizza_id and a numeric price inside 1..30 gets a 201
response whose payload carries the offering's scalar fields plus a
nested restaurant object and a nested pizza object, neither of which
contains a restaurant_pizzas key. -/
theorem c5_post_success_201 (s : Store) (q : ℚ) (pizza_id restaurant_id : ℤ)
    (hr : s.getRestaurant restaurant_id ≠ none)
    (hp : s.getPizza pizza_id ≠ none)
    (hq : 1 ≤ q ∧ q ≤ 30) :
    (postRestaurantPizza s
      ⟨some (.num q), some pizza_id, some restaurant_id⟩).1.status = 201 ∧
    ∃ j, (postRestaurantPizza s
        ⟨some (.num q), some pizza_id, some restaurant_id⟩).1.body = some j ∧
      offeringCreatedShape j = true := by
  obtain ⟨r, hrs⟩ := Option.ne_none_iff_exists'.mp hr
  obtain ⟨p, hps⟩ := Option.ne_none_iff_exists'.mp hp
  have hval : RestaurantPizza.validate_price (.num q) = .ok q := by
    unfold RestaurantPizza.validate_price
    simp [hq]
  refine ⟨?_, serializeOfferingCreated r p
      { id := s.nextRestaurantPizzaId, price := q,
        restaurant_id := restaurant_id, pizza_id := pizza_id }, ?_, ?_⟩
  · simp [postRestaurantPizza, hrs, hps, hval]
  · simp [postRestaurantPizza, hrs, hps, hval]
  · exact offeringCreatedShape_serialize r p _

/-- C5 witness: the seed example, price 12.5 at restaurant 1 / pizza 1. -/
theorem c5_post_success_201_witness :
    seedStore.getRestaurant 1 ≠ none ∧ seedStore.getPizza 1 ≠ none ∧
    ((1 : ℚ) ≤ 25 / 2 ∧ (25 / 2 : ℚ) ≤ 30) ∧
    ((postRestaurantPizza seedStore
      ⟨some (.num (25 / 2)), some 1, some 1⟩).1.status = 201 ∧
    ∃ j, (postRestaurantPizza seedStore
        ⟨some (.num (25 / 2)), some 1, some 1⟩).1.body = some j ∧
      offeringCreatedShape j = true) :=
  ⟨by decide, by decide, by norm_num,
   c5_post_success_201 seedStore (25 / 2) 1 1 (by decide) (by decide)
     (by norm_num)⟩

/-- Address of 101 characters, used to refute the claim that the
100-character address limit is enforced at assignment time. -/
def longAddress : String := String.mk (List.replicate 101 'a')

/-- C2 counterexample: the assignment-time validator accepts an address
of 101 characters, and accepts a name equal to one already present in
the store (it never sees the store), so neither the 100-character
address bound nor name uniqueness is enforced at the point of
assignment/construction. -/
theorem c2_counterexample_assignment_validation :
    longAddress.length = 101 ∧
    Restaurant.validate_address longAddress = .ok longAddress ∧
    (∃ r ∈ seedStore.restaurants, r.name = "Karens Pizza Shack") ∧
    Restaurant.validate_name "Karens Pizza Shack" = .ok "Karens Pizza Shack" :=
  ⟨rfl, rfl, by decide, rfl⟩

/-- C2 amended: at the point of assignment, a restaurant name is
validated to be non-empty and at most 50 characters, and an address only
to be non-empty; name uniqueness and the 50/100-character maximum
lengths are declared as storage-layer column constraints
(unique=True, String(50), String(100)), not checked at assignment. -/
theorem c2_restaurant_field_constraints (name address : String) :
    ((∃ v, Restaurant.validate_name name = .ok v) ↔
      (1 ≤ name.length ∧ name.length ≤ 50)) ∧
    ((∃ v, Restaurant.validate_address address = .ok v) ↔ address ≠ "") ∧
    Restaurant.name_column.unique = true ∧
    Restaurant.name_column.maxLength = some 50 ∧
    Restaurant.name_column.nullable = false ∧
    Restaurant.address_column.unique = false ∧
    Restaurant.address_column.maxLength = some 100 ∧
    Restaurant.address_column.nullable = false := by
  refine ⟨?_, ?_, rfl, rfl, rfl, rfl, rfl, rfl⟩
  · unfold Restaurant.validate_name
    by_cases h0 : name = ""
    · subst h0
      simp
    · simp only [h0, if_false]
      by_cases hc : 1 ≤ name.length ∧ name.length ≤ 50
      · simp [hc]
      · simp [hc]
  · unfold Restaurant.validate_address
    by_cases h0 : address = ""
    · subst h0
      simp
    · simp [h0]
